import Mathlib

/-!
Verification of the uberall-Rechnungskontrolle reconciliation core
(src/app.py) against its natural-language specification.

Shallow embedding conventions:
* Python strings are modelled as lists of Unicode code points (List Nat).
* A pandas cell that may be NaN is modelled as an Option: none stands for
  a missing value (NaN); some s is the string value s.  Note that the
  empty string (some []) is distinct from a missing value (none), exactly
  as pd.isna distinguishes them.
* Case mapping models the single-character Latin-1 mapping used by the
  German texts involved (A-Z, a-z and the accented Latin-1 letters).
* Whitespace for strip is the ASCII whitespace set.
-/

namespace Uberall

/-- Code points of a string literal. -/
def pstr (s : String) : List Nat := s.toList.map Char.toNat

/-- ASCII whitespace, as stripped by the Python str.strip used in app.py. -/
def pyIsSpace (c : Nat) : Bool :=
  decide (c = 9 ∨ c = 10 ∨ c = 11 ∨ c = 12 ∨ c = 13 ∨ c = 32)

/-- Single-character upper-case mapping (ASCII plus Latin-1 letters). -/
def pyToUpper (c : Nat) : Nat :=
  if (97 ≤ c ∧ c ≤ 122) ∨ (224 ≤ c ∧ c ≤ 254 ∧ c ≠ 247) then c - 32 else c

/-- Single-character lower-case mapping (ASCII plus Latin-1 letters). -/
def pyToLower (c : Nat) : Nat :=
  if (65 ≤ c ∧ c ≤ 90) ∨ (192 ≤ c ∧ c ≤ 222 ∧ c ≠ 215) then c + 32 else c

/-- Python str.upper. -/
def pyUpper (s : List Nat) : List Nat := s.map pyToUpper

/-- Python str.lower. -/
def pyLower (s : List Nat) : List Nat := s.map pyToLower

/-- Python str.strip: drop leading and trailing whitespace. -/
def pyStrip (s : List Nat) : List Nat :=
  ((s.dropWhile pyIsSpace).reverse.dropWhile pyIsSpace).reverse

/-- Embedding of DataAnalyzer.is_status_combination_ok (src/app.py lines
124-158).  The workflow-status argument is an Option because the Python
code first tests pd.isna on it; the billing state is always handed over
as a string by the caller.  Returns the pair (is_ok, reason). -/
def is_status_combination_ok (billing_state : List Nat)
    (workflow_status : Option (List Nat)) : Bool × List Nat :=
  match workflow_status with
  | none => (false, pstr "Workflow-Status ist leer")
  | some ws =>
    if pstr "STORNO" <:+: pyUpper (pyStrip ws) then
      (false, pstr "STORNO-Status sollte nicht verrechnet werden")
    else if pyUpper (pyStrip billing_state) = pstr "ACTIVE" then
      if pstr "Firmendaten Manager Fulfillment abgeschlossen." <:+: pyStrip ws then
        if ¬ (pstr "gekündigt" <:+: pyLower (pyStrip ws)) then
          (true, pstr "OK")
        else
          (false, pstr "ACTIVE aber gekündigt im Workflow-Status")
      else
        (false, pstr "ACTIVE aber nicht abgeschlossen")
    else if pyUpper (pyStrip billing_state) = pstr "CANCELLED" ∨
            pyUpper (pyStrip billing_state) = pstr "INACTIVE" then
      if pstr "gekündigt" <:+: pyLower (pyStrip ws) then
        (true, pstr "OK")
      else
        (false, pyUpper (pyStrip billing_state) ++ pstr " aber nicht gekündigt im Workflow-Status")
    else
      (false, pstr "Unbekannter Billing-Status: " ++ pyUpper (pyStrip billing_state))

example : is_status_combination_ok (pstr "ACTIVE")
    (some (pstr "Firmendaten Manager Fulfillment abgeschlossen.")) = (true, pstr "OK") := by
  decide

example : is_status_combination_ok (pstr "INACTIVE") (some (pstr "")) =
    (false, pstr "INACTIVE aber nicht gekündigt im Workflow-Status") := by
  decide

example : is_status_combination_ok (pstr "active ") (some (pstr "x Storno y")) =
    (false, pstr "STORNO-Status sollte nicht verrechnet werden") := by
  decide

example : is_status_combination_ok (pstr "CANCELLED") (some (pstr "Vertrag GEKÜNDIGT")) =
    (true, pstr "OK") := by
  decide

/-- Embedding of the inner get_product_type of
FileProcessor.categorize_service_type (src/app.py lines 100-111).  The
plan cell is an Option: none models a row without a plan value (column
missing or NaN), some p a present string value p. -/
def get_product_type (plan : Option (List Nat)) : List Nat :=
  match plan with
  | none => pstr "Unbekannt"
  | some p =>
    if pstr "basic" <:+: pyLower p then
      pstr "Firmendaten Manager Basic"
    else if pstr "plus" <:+: pyLower p ∨ pstr "manger plus" <:+: pyLower p then
      pstr "Firmendaten Manager Plus"
    else if pstr "pro" <:+: pyLower p then
      pstr "Firmendaten Manager PRO"
    else
      pstr "Sonstige"

example : get_product_type (some (pstr "Manger Plus")) = pstr "Firmendaten Manager Plus" := by
  decide

example : get_product_type (some (pstr "basic pro")) = pstr "Firmendaten Manager Basic" := by
  decide

example : get_product_type (some (pstr "")) = pstr "Sonstige" := by decide

/-- A row of the CRM dataframe, restricted to the columns the analyzer
reads.  The identifiers come out of pd.read_csv with dtype str; the
workflow status and project name cells may be NaN (none). -/
structure CrmRow where
  uberallLocationId : List Nat
  workflowStatus : Option (List Nat)
  projektname : Option (List Nat)
deriving DecidableEq

/-- A row of the filtered uberall billing dataframe, restricted to the
columns the analyzer reads.  The location id cell may be NaN (none). -/
structure BillingRow where
  locationId : Option (List Nat)
  locationState : List Nat
  locationName : Option (List Nat)
deriving DecidableEq

/-- src/app.py line 182: str of the location id cell if pd.notna, else
the empty string. -/
def effectiveLocationId (row : BillingRow) : List Nat :=
  match row.locationId with
  | none => []
  | some s => s

/-- The issue dictionary built by analyze_billing_discrepancies
(src/app.py lines 194-204 and 219-229). -/
structure Issue where
  location_id : List Nat
  location_name : Option (List Nat)
  location_state : List Nat
  problem_type : List Nat
  problem_detail : List Nat
  billing_data : BillingRow
  crm_data : Option CrmRow
  workflow_status : Option (List Nat)
  projektname : Option (List Nat)
deriving DecidableEq

/-- What one iteration of the analysis loop contributes: the row is
skipped (empty location id, line 186-187), counted as ok (line 217), or
recorded as a problematic entry. -/
inductive Outcome where
  | skipped
  | ok
  | issue (i : Issue)
deriving DecidableEq

def Outcome.isOk : Outcome → Bool
  | .ok => true
  | _ => false

def Outcome.issueOf : Outcome → Option Issue
  | .issue i => some i
  | _ => none

/-- src/app.py line 190 together with line 210: the boolean-mask lookup
followed by iloc zero selects the first CRM row (in source order) whose
identifier is exactly equal to the requested one. -/
def findCrmMatch (crm : List CrmRow) (loc : List Nat) : Option CrmRow :=
  crm.find? (fun r => r.uberallLocationId == loc)

/-- One iteration of the loop of analyze_billing_discrepancies
(src/app.py lines 181-231). -/
def processRow (crm : List CrmRow) (row : BillingRow) : Outcome :=
  if effectiveLocationId row = [] then
    .skipped
  else
    match findCrmMatch crm (effectiveLocationId row) with
    | none =>
      .issue
        { location_id := effectiveLocationId row
          location_name := row.locationName
          location_state := row.locationState
          problem_type := pstr "Location nicht im CRM"
          problem_detail := pstr "Location ID wurde im CRM nicht gefunden"
          billing_data := row
          crm_data := none
          workflow_status := some (pstr "N/A")
          projektname := some (pstr "N/A") }
    | some crmRow =>
      if (is_status_combination_ok row.locationState crmRow.workflowStatus).1 then
        .ok
      else
        .issue
          { location_id := effectiveLocationId row
            location_name := row.locationName
            location_state := row.locationState
            problem_type := pstr "Status-Kombination Problem"
            problem_detail := (is_status_combination_ok row.locationState crmRow.workflowStatus).2
            billing_data := row
            crm_data := some crmRow
            workflow_status := crmRow.workflowStatus
            projektname := crmRow.projektname }

/-- src/app.py line 236: issues_by_type gets the count of the given
problem type bumped, inserting the key at the end on first sight (dict
insertion order). -/
def bumpType (m : List (List Nat × Nat)) (k : List Nat) : List (List Nat × Nat) :=
  match m with
  | [] => [(k, 1)]
  | (k2, v) :: rest => if k2 = k then (k2, v + 1) :: rest else (k2, v) :: bumpType rest k

/-- src/app.py lines 233-236: count the problematic entries by problem
type, in first-appearance order. -/
def countTypes (issues : List Issue) : List (List Nat × Nat) :=
  issues.foldl (fun m i => bumpType m i.problem_type) []

/-- The counting part of the result dictionary of
analyze_billing_discrepancies (src/app.py lines 160-240).  The product
and location-state breakdowns are frequency counts delegated to pandas
value_counts and are not needed by any claim, so they are left out of
the embedding. -/
structure AnalysisResult where
  total_billed : Nat
  ok_count : Nat
  issues_count : Nat
  issues_by_type : List (List Nat × Nat)
  problematic_entries : List Issue
deriving DecidableEq

/-- Embedding of DataAnalyzer.analyze_billing_discrepancies (src/app.py
lines 160-240): total_billed is the length of the filtered billing
dataframe (line 163); each row is processed by the loop; ok_count counts
the ok outcomes; problematic_entries collects the issues in iteration
order; issues_count is its length (line 238); issues_by_type counts the
entries by problem type (lines 233-236). -/
def analyze_billing_discrepancies (uberall : List BillingRow) (crm : List CrmRow) :
    AnalysisResult :=
  { total_billed := uberall.length
    ok_count := ((uberall.map (processRow crm)).filter Outcome.isOk).length
    issues_count := ((uberall.map (processRow crm)).filterMap Outcome.issueOf).length
    issues_by_type := countTypes ((uberall.map (processRow crm)).filterMap Outcome.issueOf)
    problematic_entries := (uberall.map (processRow crm)).filterMap Outcome.issueOf }

/-- Python replace of a comma by a semicolon, as applied in
ReportGenerator.generate_csv_report (src/app.py lines 289-294).  Code
point 44 is the comma, 59 the semicolon. -/
def replaceComma (s : List Nat) : List Nat :=
  s.map (fun c => if c = 44 then 59 else c)

/-- Python str applied to a cell value: NaN prints as nan. -/
def strCell (c : Option (List Nat)) : List Nat :=
  match c with
  | none => pstr "nan"
  | some s => s

/-- One data row of the CSV report (src/app.py lines 287-296): the f
string joins the seven fields with commas; only location name, problem
detail, workflow status and project name get their commas replaced. -/
def csvIssueRow (i : Issue) : List Nat :=
  i.location_id ++ [44] ++
  replaceComma (strCell i.location_name) ++ [44] ++
  i.location_state ++ [44] ++
  i.problem_type ++ [44] ++
  replaceComma i.problem_detail ++ [44] ++
  replaceComma (strCell i.workflow_status) ++ [44] ++
  replaceComma (strCell i.projektname)

/-- Modelled from the spec words of section 4.4 for comparison with the
code (refinement): a data row in which every one of the seven text
fields has its embedded separator characters replaced before being
placed in the row. -/
def csvIssueRowSpec (i : Issue) : List Nat :=
  replaceComma i.location_id ++ [44] ++
  replaceComma (strCell i.location_name) ++ [44] ++
  replaceComma i.location_state ++ [44] ++
  replaceComma i.problem_type ++ [44] ++
  replaceComma i.problem_detail ++ [44] ++
  replaceComma (strCell i.workflow_status) ++ [44] ++
  replaceComma (strCell i.projektname)

/-- The column header row of the CSV report (src/app.py line 285). -/
def csvHeader : List Nat :=
  pstr "Location ID,Location Name,Location State,Problem Typ,Problem Detail,Workflow Status,Projektname"

/-- Split a delimited row at the commas; used to state what the comma
replacement achieves. -/
def splitComma : List Nat → List (List Nat)
  | [] => [[]]
  | c :: rest =>
    if c = 44 then
      [] :: splitComma rest
    else
      match splitComma rest with
      | [] => [[c]]
      | h :: t => (c :: h) :: t

example : splitComma (pstr "a,b,,c") = [pstr "a", pstr "b", pstr "", pstr "c"] := by decide

/-- Sum of the per-type counts of an issues_by_type mapping. -/
def sumCounts (m : List (List Nat × Nat)) : Nat := (m.map Prod.snd).sum

/-! ### Lemmas about the string model -/

theorem pyIsSpace_ge {c : Nat} (h : 33 ≤ c) : pyIsSpace c = false := by
  unfold pyIsSpace
  simp only [decide_eq_false_iff_not]
  omega

theorem pyIsSpace_pyToUpper (c : Nat) : pyIsSpace (pyToUpper c) = pyIsSpace c := by
  unfold pyToUpper
  split
  · rename_i h
    rw [pyIsSpace_ge (by omega), pyIsSpace_ge (by omega)]
  · rfl

theorem pyIsSpace_pyToLower (c : Nat) : pyIsSpace (pyToLower c) = pyIsSpace c := by
  unfold pyToLower
  split
  · rename_i h
    rw [pyIsSpace_ge (by omega), pyIsSpace_ge (by omega)]
  · rfl

theorem dropWhile_map_pyToUpper (l : List Nat) :
    (l.map pyToUpper).dropWhile pyIsSpace = (l.dropWhile pyIsSpace).map pyToUpper := by
  induction l with
  | nil => rfl
  | cons c t ih =>
    simp only [List.map_cons, List.dropWhile_cons, pyIsSpace_pyToUpper]
    by_cases h : pyIsSpace c = true
    · rw [if_pos h, if_pos h, ih]
    · rw [if_neg h, if_neg h, List.map_cons]

theorem dropWhile_map_pyToLower (l : List Nat) :
    (l.map pyToLower).dropWhile pyIsSpace = (l.dropWhile pyIsSpace).map pyToLower := by
  induction l with
  | nil => rfl
  | cons c t ih =>
    simp only [List.map_cons, List.dropWhile_cons, pyIsSpace_pyToLower]
    by_cases h : pyIsSpace c = true
    · rw [if_pos h, if_pos h, ih]
    · rw [if_neg h, if_neg h, List.map_cons]

theorem pyStrip_pyUpper (l : List Nat) : pyStrip (pyUpper l) = pyUpper (pyStrip l) := by
  unfold pyStrip pyUpper
  rw [dropWhile_map_pyToUpper, ← List.map_reverse, dropWhile_map_pyToUpper,
    ← List.map_reverse]

theorem pyStrip_pyLower (l : List Nat) : pyStrip (pyLower l) = pyLower (pyStrip l) := by
  unfold pyStrip pyLower
  rw [dropWhile_map_pyToLower, ← List.map_reverse, dropWhile_map_pyToLower,
    ← List.map_reverse]

theorem infix_dropWhile {c : Nat} {t l : List Nat} (hc : pyIsSpace c = false)
    (h : (c :: t) <:+: l) : (c :: t) <:+: l.dropWhile pyIsSpace := by
  induction l with
  | nil =>
    rw [List.infix_nil] at h
    exact absurd h (by simp)
  | cons a l ih =>
    rw [List.dropWhile_cons]
    by_cases ha : pyIsSpace a = true
    · rw [if_pos ha]
      rcases List.infix_cons_iff.mp h with hpre | hinf
      · rcases List.cons_prefix_cons.mp hpre with ⟨heq, -⟩
        rw [← heq] at ha
        simp [hc] at ha
      · exact ih hinf
    · rw [if_neg ha]
      exact h

theorem rev_inf {l₁ l₂ : List Nat} (h : l₁ <:+: l₂) : l₁.reverse <:+: l₂.reverse :=
  List.reverse_infix.mpr h

theorem infix_pyStrip {N : List Nat} (l : List Nat) (hne : N ≠ [])
    (hh : pyIsSpace (N.headD 0) = false)
    (hl : pyIsSpace (N.reverse.headD 0) = false)
    (h : N <:+: l) : N <:+: pyStrip l := by
  obtain ⟨c, t, rfl⟩ := List.exists_cons_of_ne_nil hne
  have hh2 : pyIsSpace c = false := hh
  have h1 : (c :: t) <:+: l.dropWhile pyIsSpace := infix_dropWhile hh2 h
  have h2 := rev_inf h1
  obtain ⟨d, s, hds⟩ := List.exists_cons_of_ne_nil (l := (c :: t).reverse) (by simp)
  have hd : pyIsSpace d = false := by
    rw [hds] at hl
    exact hl
  rw [hds] at h2
  have h3 := infix_dropWhile hd h2
  rw [← hds] at h3
  have h4 := rev_inf h3
  rw [List.reverse_reverse] at h4
  unfold pyStrip
  exact h4

theorem pyStrip_sub (l : List Nat) : pyStrip l <:+: l := by
  unfold pyStrip
  have h1 : l.dropWhile pyIsSpace <:+: l := (List.dropWhile_suffix pyIsSpace).isInfix
  have h2 : (l.dropWhile pyIsSpace).reverse.dropWhile pyIsSpace <:+
      (l.dropWhile pyIsSpace).reverse := List.dropWhile_suffix pyIsSpace
  have h3 : ((l.dropWhile pyIsSpace).reverse.dropWhile pyIsSpace).reverse <+:
      l.dropWhile pyIsSpace := by
    rw [← List.reverse_suffix]
    simpa using h2
  exact (h3.isInfix).trans h1

theorem infix_pyStrip_iff {N : List Nat} (s : List Nat) (hne : N ≠ [])
    (hh : pyIsSpace (N.headD 0) = false)
    (hl : pyIsSpace (N.reverse.headD 0) = false) :
    N <:+: pyStrip s ↔ N <:+: s :=
  ⟨fun h => h.trans (pyStrip_sub s), infix_pyStrip s hne hh hl⟩

theorem infix_upper_pyStrip_iff {N : List Nat} (s : List Nat) (hne : N ≠ [])
    (hh : pyIsSpace (N.headD 0) = false)
    (hl : pyIsSpace (N.reverse.headD 0) = false) :
    N <:+: pyUpper (pyStrip s) ↔ N <:+: pyUpper s := by
  rw [← pyStrip_pyUpper]
  exact infix_pyStrip_iff (pyUpper s) hne hh hl

theorem infix_lower_pyStrip_iff {N : List Nat} (s : List Nat) (hne : N ≠ [])
    (hh : pyIsSpace (N.headD 0) = false)
    (hl : pyIsSpace (N.reverse.headD 0) = false) :
    N <:+: pyLower (pyStrip s) ↔ N <:+: pyLower s := by
  rw [← pyStrip_pyLower]
  exact infix_pyStrip_iff (pyLower s) hne hh hl

/-! ### Evaluation lemmas for the status compatibility rule

Each lemma evaluates is_status_combination_ok under the hypotheses that
select one branch of the decision chain; the hypotheses are phrased on
the stripped strings exactly as the code tests them. -/

theorem eval_storno {b s : List Nat}
    (h : pstr "STORNO" <:+: pyUpper (pyStrip s)) :
    is_status_combination_ok b (some s) =
      (false, pstr "STORNO-Status sollte nicht verrechnet werden") := by
  simp only [is_status_combination_ok]
  rw [if_pos h]

theorem eval_active_ok {b s : List Nat}
    (hst : ¬ (pstr "STORNO" <:+: pyUpper (pyStrip s)))
    (hact : pyUpper (pyStrip b) = pstr "ACTIVE")
    (h1 : pstr "Firmendaten Manager Fulfillment abgeschlossen." <:+: pyStrip s)
    (h2 : ¬ (pstr "gekündigt" <:+: pyLower (pyStrip s))) :
    is_status_combination_ok b (some s) = (true, pstr "OK") := by
  simp only [is_status_combination_ok]
  rw [if_neg hst, if_pos hact, if_pos h1, if_pos h2]

theorem eval_active_gek {b s : List Nat}
    (hst : ¬ (pstr "STORNO" <:+: pyUpper (pyStrip s)))
    (hact : pyUpper (pyStrip b) = pstr "ACTIVE")
    (h1 : pstr "Firmendaten Manager Fulfillment abgeschlossen." <:+: pyStrip s)
    (h2 : pstr "gekündigt" <:+: pyLower (pyStrip s)) :
    is_status_combination_ok b (some s) =
      (false, pstr "ACTIVE aber gekündigt im Workflow-Status") := by
  simp only [is_status_combination_ok]
  rw [if_neg hst, if_pos hact, if_pos h1, if_neg (not_not_intro h2)]

theorem eval_active_nabg {b s : List Nat}
    (hst : ¬ (pstr "STORNO" <:+: pyUpper (pyStrip s)))
    (hact : pyUpper (pyStrip b) = pstr "ACTIVE")
    (h1 : ¬ (pstr "Firmendaten Manager Fulfillment abgeschlossen." <:+: pyStrip s)) :
    is_status_combination_ok b (some s) =
      (false, pstr "ACTIVE aber nicht abgeschlossen") := by
  simp only [is_status_combination_ok]
  rw [if_neg hst, if_pos hact, if_neg h1]

theorem eval_ci_ok {b s : List Nat}
    (hst : ¬ (pstr "STORNO" <:+: pyUpper (pyStrip s)))
    (hact : ¬ (pyUpper (pyStrip b) = pstr "ACTIVE"))
    (hci : pyUpper (pyStrip b) = pstr "CANCELLED" ∨ pyUpper (pyStrip b) = pstr "INACTIVE")
    (h2 : pstr "gekündigt" <:+: pyLower (pyStrip s)) :
    is_status_combination_ok b (some s) = (true, pstr "OK") := by
  simp only [is_status_combination_ok]
  rw [if_neg hst, if_neg hact, if_pos hci, if_pos h2]

theorem eval_ci_bad {b s : List Nat}
    (hst : ¬ (pstr "STORNO" <:+: pyUpper (pyStrip s)))
    (hact : ¬ (pyUpper (pyStrip b) = pstr "ACTIVE"))
    (hci : pyUpper (pyStrip b) = pstr "CANCELLED" ∨ pyUpper (pyStrip b) = pstr "INACTIVE")
    (h2 : ¬ (pstr "gekündigt" <:+: pyLower (pyStrip s))) :
    is_status_combination_ok b (some s) =
      (false, pyUpper (pyStrip b) ++ pstr " aber nicht gekündigt im Workflow-Status") := by
  simp only [is_status_combination_ok]
  rw [if_neg hst, if_neg hact, if_pos hci, if_neg h2]

theorem eval_unknown {b s : List Nat}
    (hst : ¬ (pstr "STORNO" <:+: pyUpper (pyStrip s)))
    (hact : ¬ (pyUpper (pyStrip b) = pstr "ACTIVE"))
    (hci : ¬ (pyUpper (pyStrip b) = pstr "CANCELLED" ∨
              pyUpper (pyStrip b) = pstr "INACTIVE")) :
    is_status_combination_ok b (some s) =
      (false, pstr "Unbekannter Billing-Status: " ++ pyUpper (pyStrip b)) := by
  simp only [is_status_combination_ok]
  rw [if_neg hst, if_neg hact, if_neg hci]

/-! ### Claims about the status compatibility rule -/

/-- Claim C1 (amended): for every billingState, a missing (NaN) workflowStatus
yields incompatible with reason Workflow-Status ist leer; the empty
string, however, is not caught by that first rule and falls through to
the state rules, so billingState INACTIVE with the empty-string
workflowStatus yields the reason INACTIVE aber nicht gekündigt im
Workflow-Status. -/
theorem claim_c1_amended :
    (∀ b : List Nat,
      is_status_combination_ok b none = (false, pstr "Workflow-Status ist leer"))
    ∧ is_status_combination_ok (pstr "INACTIVE") (some (pstr "")) =
      (false, pstr "INACTIVE aber nicht gekündigt im Workflow-Status") :=
  ⟨fun _ => rfl, by decide⟩

/-- Claim C1 (counterexample): contrary to the claim, the empty-string
workflowStatus with billingState INACTIVE does not produce the reason
Workflow-Status ist leer, because pd.isna is false on the empty
string. -/
theorem claim_c1_counterexample :
    ¬ (is_status_combination_ok (pstr "INACTIVE") (some (pstr "")) =
      (false, pstr "Workflow-Status ist leer")) := by
  decide

/-- Claim C2: for every billingState and every non-empty workflowStatus that
contains the substring STORNO case-insensitively, the rule returns
incompatible with the STORNO reason, regardless of billingState and of
any later rule. -/
theorem claim_c2 (b s : List Nat) (_hne : s ≠ [])
    (h : pstr "STORNO" <:+: pyUpper s) :
    is_status_combination_ok b (some s) =
      (false, pstr "STORNO-Status sollte nicht verrechnet werden") := by
  have h2 : pstr "STORNO" <:+: pyUpper (pyStrip s) :=
    (infix_upper_pyStrip_iff s (by decide) (by decide) (by decide)).mpr h
  simp only [is_status_combination_ok]
  rw [if_pos h2]

/-- Claim C2 (witness): a concrete STORNO instance, lower case and with an
ACTIVE billing state whose completion rule would otherwise fire. -/
theorem claim_c2_witness :
    is_status_combination_ok (pstr "ACTIVE")
      (some (pstr " Firmendaten Manager Fulfillment abgeschlossen. storno ")) =
      (false, pstr "STORNO-Status sollte nicht verrechnet werden") :=
  claim_c2 (pstr "ACTIVE")
    (pstr " Firmendaten Manager Fulfillment abgeschlossen. storno ")
    (by decide) (by decide)

/-- Claim C3: for every non-empty workflowStatus without a case-insensitive
STORNO, with the billingState normalized (stripped and upper-cased): in
the ACTIVE case the rule is compatible exactly when the workflowStatus
contains the completion phrase and no case-insensitive gekündigt, with
the two stated reasons otherwise; in the CANCELLED and INACTIVE cases
it is compatible exactly when the workflowStatus contains a
case-insensitive gekündigt, with the stated reason otherwise; any other
normalized state yields the unknown-billing-status reason. -/
theorem claim_c3 (b s : List Nat) (_hne : s ≠ [])
    (hstorno : ¬ (pstr "STORNO" <:+: pyUpper s)) :
    (pyUpper (pyStrip b) = pstr "ACTIVE" →
      ((is_status_combination_ok b (some s) = (true, pstr "OK") ↔
          (pstr "Firmendaten Manager Fulfillment abgeschlossen." <:+: s ∧
           ¬ (pstr "gekündigt" <:+: pyLower s)))
       ∧ (¬ (pstr "Firmendaten Manager Fulfillment abgeschlossen." <:+: s) →
           is_status_combination_ok b (some s) =
             (false, pstr "ACTIVE aber nicht abgeschlossen"))
       ∧ (pstr "Firmendaten Manager Fulfillment abgeschlossen." <:+: s →
           pstr "gekündigt" <:+: pyLower s →
           is_status_combination_ok b (some s) =
             (false, pstr "ACTIVE aber gekündigt im Workflow-Status"))))
    ∧ (pyUpper (pyStrip b) = pstr "CANCELLED" ∨ pyUpper (pyStrip b) = pstr "INACTIVE" →
        ((is_status_combination_ok b (some s) = (true, pstr "OK") ↔
            pstr "gekündigt" <:+: pyLower s)
         ∧ (¬ (pstr "gekündigt" <:+: pyLower s) →
             is_status_combination_ok b (some s) =
               (false, pyUpper (pyStrip b) ++
                 pstr " aber nicht gekündigt im Workflow-Status"))))
    ∧ (pyUpper (pyStrip b) ≠ pstr "ACTIVE" →
        pyUpper (pyStrip b) ≠ pstr "CANCELLED" →
        pyUpper (pyStrip b) ≠ pstr "INACTIVE" →
        is_status_combination_ok b (some s) =
          (false, pstr "Unbekannter Billing-Status: " ++ pyUpper (pyStrip b))) := by
  have hst : ¬ (pstr "STORNO" <:+: pyUpper (pyStrip s)) := fun hx =>
    hstorno ((infix_upper_pyStrip_iff s (by decide) (by decide) (by decide)).mp hx)
  have habg : pstr "Firmendaten Manager Fulfillment abgeschlossen." <:+: pyStrip s ↔
      pstr "Firmendaten Manager Fulfillment abgeschlossen." <:+: s :=
    infix_pyStrip_iff s (by decide) (by decide) (by decide)
  have hgek : pstr "gekündigt" <:+: pyLower (pyStrip s) ↔
      pstr "gekündigt" <:+: pyLower s :=
    infix_lower_pyStrip_iff s (by decide) (by decide) (by decide)
  refine ⟨fun hact => ⟨?_, ?_, ?_⟩, fun hci => ?_, fun h1 h2 h3 => ?_⟩
  · constructor
    · intro heq
      by_cases h1 : pstr "Firmendaten Manager Fulfillment abgeschlossen." <:+: pyStrip s
      · by_cases h2 : pstr "gekündigt" <:+: pyLower (pyStrip s)
        · rw [eval_active_gek hst hact h1 h2] at heq
          simp at heq
        · exact ⟨habg.mp h1, fun hg => h2 (hgek.mpr hg)⟩
      · rw [eval_active_nabg hst hact h1] at heq
        simp at heq
    · rintro ⟨hA, hG⟩
      exact eval_active_ok hst hact (habg.mpr hA) (fun hx => hG (hgek.mp hx))
  · intro hA
    exact eval_active_nabg hst hact (fun hx => hA (habg.mp hx))
  · intro hA hG
    exact eval_active_gek hst hact (habg.mpr hA) (hgek.mpr hG)
  · have hact : ¬ (pyUpper (pyStrip b) = pstr "ACTIVE") := by
      rcases hci with h | h <;> rw [h] <;> decide
    constructor
    · constructor
      · intro heq
        by_cases h2 : pstr "gekündigt" <:+: pyLower (pyStrip s)
        · exact hgek.mp h2
        · rw [eval_ci_bad hst hact hci h2] at heq
          simp at heq
      · intro hG
        exact eval_ci_ok hst hact hci (hgek.mpr hG)
    · intro hG
      exact eval_ci_bad hst hact hci (fun hx => hG (hgek.mp hx))
  · exact eval_unknown hst h1 (fun h => h.elim h2 h3)

/-- Claim C3 (witness): spec scenario 1, billingState ACTIVE with exactly the
completion phrase as workflowStatus, is compatible. -/
theorem claim_c3_witness :
    is_status_combination_ok (pstr "ACTIVE")
      (some (pstr "Firmendaten Manager Fulfillment abgeschlossen.")) =
      (true, pstr "OK") :=
  (((claim_c3 (pstr "ACTIVE")
      (pstr "Firmendaten Manager Fulfillment abgeschlossen.")
      (by decide) (by decide)).1 (by decide)).1).mpr ⟨by decide, by decide⟩

/-- Claim C8: the status compatibility rule is total: every input pair maps to
one of the defined verdict-and-reason shapes; an unrecognized normalized
billingState still yields the defined unknown-status incompatible
outcome; and each loop iteration of the engine yields a defined outcome
(skipped, ok, or a recorded issue). -/
theorem claim_c8 :
    (∀ (b : List Nat) (w : Option (List Nat)),
      is_status_combination_ok b w = (true, pstr "OK") ∨
      is_status_combination_ok b w = (false, pstr "Workflow-Status ist leer") ∨
      is_status_combination_ok b w =
        (false, pstr "STORNO-Status sollte nicht verrechnet werden") ∨
      is_status_combination_ok b w = (false, pstr "ACTIVE aber nicht abgeschlossen") ∨
      is_status_combination_ok b w =
        (false, pstr "ACTIVE aber gekündigt im Workflow-Status") ∨
      (∃ st, is_status_combination_ok b w =
        (false, st ++ pstr " aber nicht gekündigt im Workflow-Status")) ∨
      (∃ st, is_status_combination_ok b w =
        (false, pstr "Unbekannter Billing-Status: " ++ st)))
    ∧ (∀ (b s : List Nat), ¬ (pstr "STORNO" <:+: pyUpper (pyStrip s)) →
        pyUpper (pyStrip b) ≠ pstr "ACTIVE" →
        pyUpper (pyStrip b) ≠ pstr "CANCELLED" →
        pyUpper (pyStrip b) ≠ pstr "INACTIVE" →
        is_status_combination_ok b (some s) =
          (false, pstr "Unbekannter Billing-Status: " ++ pyUpper (pyStrip b)))
    ∧ (∀ (crm : List CrmRow) (row : BillingRow),
        processRow crm row = .skipped ∨ processRow crm row = .ok ∨
        ∃ i, processRow crm row = .issue i) := by
  refine ⟨?_, ?_, ?_⟩
  · intro b w
    match w with
    | none => exact Or.inr (Or.inl rfl)
    | some s =>
      by_cases hst : pstr "STORNO" <:+: pyUpper (pyStrip s)
      · exact Or.inr (Or.inr (Or.inl (eval_storno hst)))
      · by_cases hact : pyUpper (pyStrip b) = pstr "ACTIVE"
        · by_cases h1 : pstr "Firmendaten Manager Fulfillment abgeschlossen." <:+: pyStrip s
          · by_cases h2 : pstr "gekündigt" <:+: pyLower (pyStrip s)
            · exact Or.inr (Or.inr (Or.inr (Or.inr (Or.inl
                (eval_active_gek hst hact h1 h2)))))
            · exact Or.inl (eval_active_ok hst hact h1 h2)
          · exact Or.inr (Or.inr (Or.inr (Or.inl (eval_active_nabg hst hact h1))))
        · by_cases hci : pyUpper (pyStrip b) = pstr "CANCELLED" ∨
              pyUpper (pyStrip b) = pstr "INACTIVE"
          · by_cases h2 : pstr "gekündigt" <:+: pyLower (pyStrip s)
            · exact Or.inl (eval_ci_ok hst hact hci h2)
            · exact Or.inr (Or.inr (Or.inr (Or.inr (Or.inr (Or.inl
                ⟨pyUpper (pyStrip b), eval_ci_bad hst hact hci h2⟩)))))
          · exact Or.inr (Or.inr (Or.inr (Or.inr (Or.inr (Or.inr
              ⟨pyUpper (pyStrip b), eval_unknown hst hact hci⟩)))))
  · intro b s hst h1 h2 h3
    exact eval_unknown hst h1 (fun h => h.elim h2 h3)
  · intro crm row
    unfold processRow
    by_cases heff : effectiveLocationId row = []
    · rw [if_pos heff]
      exact Or.inl rfl
    · rw [if_neg heff]
      cases hfind : findCrmMatch crm (effectiveLocationId row) with
      | none =>
        exact Or.inr (Or.inr ⟨_, rfl⟩)
      | some r =>
        dsimp only
        by_cases hok : (is_status_combination_ok row.locationState r.workflowStatus).1 = true
        · rw [if_pos hok]
          exact Or.inr (Or.inl rfl)
        · rw [if_neg hok]
          exact Or.inr (Or.inr ⟨_, rfl⟩)

/-- Claim C8 (witness): a concrete unrecognized billing state yields the
defined unknown-status outcome. -/
theorem claim_c8_witness :
    is_status_combination_ok (pstr " weird ") (some (pstr "x")) =
      (false, pstr "Unbekannter Billing-Status: " ++ pyUpper (pyStrip (pstr " weird "))) :=
  claim_c8.2.1 (pstr " weird ") (pstr "x") (by decide) (by decide) (by decide) (by decide)

/-! ### Lemmas about the reconciliation engine -/

theorem processRow_skipped_iff (crm : List CrmRow) (row : BillingRow) :
    processRow crm row = .skipped ↔ effectiveLocationId row = [] := by
  constructor
  · intro h
    by_contra heff
    unfold processRow at h
    rw [if_neg heff] at h
    cases hfind : findCrmMatch crm (effectiveLocationId row) with
    | none =>
      rw [hfind] at h
      dsimp only at h
      exact absurd h (by simp)
    | some r =>
      rw [hfind] at h
      dsimp only at h
      by_cases hok : (is_status_combination_ok row.locationState r.workflowStatus).1 = true
      · rw [if_pos hok] at h
        exact absurd h (by simp)
      · rw [if_neg hok] at h
        exact absurd h (by simp)
  · intro h
    unfold processRow
    rw [if_pos h]

theorem ok_add_issues (crm : List CrmRow) (u : List BillingRow)
    (h : ∀ row ∈ u, effectiveLocationId row ≠ []) :
    ((u.map (processRow crm)).filter Outcome.isOk).length +
      ((u.map (processRow crm)).filterMap Outcome.issueOf).length = u.length := by
  induction u with
  | nil => rfl
  | cons r t ih =>
    have hr : effectiveLocationId r ≠ [] := h r (List.mem_cons_self r t)
    have ht := ih (fun row hrow => h row (List.mem_cons_of_mem r hrow))
    simp only [List.map_cons, List.filter_cons, List.filterMap_cons, List.length_cons]
    cases hpr : processRow crm r with
    | skipped => exact absurd ((processRow_skipped_iff crm r).mp hpr) hr
    | ok =>
      simp only [Outcome.isOk, Outcome.issueOf, if_true, List.length_cons]
      omega
    | issue i =>
      simp only [Outcome.isOk, Outcome.issueOf, Bool.false_eq_true, if_false,
        List.length_cons]
      omega

theorem sumCounts_bumpType (m : List (List Nat × Nat)) (k : List Nat) :
    sumCounts (bumpType m k) = sumCounts m + 1 := by
  induction m with
  | nil => rfl
  | cons kv rest ih =>
    obtain ⟨k2, v⟩ := kv
    unfold bumpType
    by_cases hk : k2 = k
    · rw [if_pos hk]
      simp only [sumCounts, List.map_cons, List.sum_cons]
      omega
    · rw [if_neg hk]
      simp only [sumCounts, List.map_cons, List.sum_cons] at ih ⊢
      omega

theorem sumCounts_foldl (l : List Issue) (m : List (List Nat × Nat)) :
    sumCounts (l.foldl (fun acc i => bumpType acc i.problem_type) m) =
      sumCounts m + l.length := by
  induction l generalizing m with
  | nil => simp
  | cons i t ih =>
    simp only [List.foldl_cons, List.length_cons]
    rw [ih, sumCounts_bumpType]
    omega

theorem sumCounts_countTypes (l : List Issue) : sumCounts (countTypes l) = l.length := by
  unfold countTypes
  rw [sumCounts_foldl]
  simp [sumCounts]

/-! ### Claims about the reconciliation engine and aggregation -/

/-- Claim C4 (amended): for every pair of input collections in which every
billing record carries a non-empty identifier, ok_count plus
issues_count equals total_billed; and for every pair of input
collections whatsoever, the counts of issues_by_type sum to
issues_count.  Without the identifier condition the first equation can
fail, because a row with a missing identifier is counted in
total_billed but skipped by the loop. -/
theorem claim_c4_amended (u : List BillingRow) (c : List CrmRow) :
    ((∀ row ∈ u, effectiveLocationId row ≠ []) →
      (analyze_billing_discrepancies u c).ok_count +
        (analyze_billing_discrepancies u c).issues_count =
        (analyze_billing_discrepancies u c).total_billed)
    ∧ sumCounts (analyze_billing_discrepancies u c).issues_by_type =
        (analyze_billing_discrepancies u c).issues_count := by
  constructor
  · intro h
    exact ok_add_issues c u h
  · exact sumCounts_countTypes _

/-- Claim C4 (counterexample): a single billing row whose location id cell is
missing is counted in total_billed but neither as ok nor as an issue, so
the unconditional claim fails. -/
theorem claim_c4_counterexample :
    ¬ ((analyze_billing_discrepancies
          [{ locationId := none, locationState := pstr "ACTIVE", locationName := none }]
          []).ok_count +
        (analyze_billing_discrepancies
          [{ locationId := none, locationState := pstr "ACTIVE", locationName := none }]
          []).issues_count =
        (analyze_billing_discrepancies
          [{ locationId := none, locationState := pstr "ACTIVE", locationName := none }]
          []).total_billed) := by
  decide

/-- Claim C4 (witness): one billing row with a non-empty identifier and an
empty CRM list. -/
theorem claim_c4_witness :
    ((analyze_billing_discrepancies
        [{ locationId := some (pstr "L1"), locationState := pstr "ACTIVE",
           locationName := none }] []).ok_count +
      (analyze_billing_discrepancies
        [{ locationId := some (pstr "L1"), locationState := pstr "ACTIVE",
           locationName := none }] []).issues_count =
      (analyze_billing_discrepancies
        [{ locationId := some (pstr "L1"), locationState := pstr "ACTIVE",
           locationName := none }] []).total_billed)
    ∧ sumCounts (analyze_billing_discrepancies
        [{ locationId := some (pstr "L1"), locationState := pstr "ACTIVE",
           locationName := none }] []).issues_by_type =
      (analyze_billing_discrepancies
        [{ locationId := some (pstr "L1"), locationState := pstr "ACTIVE",
           locationName := none }] []).issues_count :=
  ⟨(claim_c4_amended _ _).1 (by decide), (claim_c4_amended _ _).2⟩

/-- Claim C5: a billing record with a non-empty identifier that matches no CRM
record (exact, case-sensitive equality) produces the Location nicht im
CRM outcome with no matched CRM record and N/A for both workflow status
and project name. -/
theorem claim_c5 (crm : List CrmRow) (row : BillingRow)
    (heff : effectiveLocationId row ≠ [])
    (h : ∀ r ∈ crm, r.uberallLocationId ≠ effectiveLocationId row) :
    processRow crm row = .issue
      { location_id := effectiveLocationId row
        location_name := row.locationName
        location_state := row.locationState
        problem_type := pstr "Location nicht im CRM"
        problem_detail := pstr "Location ID wurde im CRM nicht gefunden"
        billing_data := row
        crm_data := none
        workflow_status := some (pstr "N/A")
        projektname := some (pstr "N/A") } := by
  have hfind : findCrmMatch crm (effectiveLocationId row) = none := by
    unfold findCrmMatch
    rw [List.find?_eq_none]
    intro x hx
    simp only [beq_iff_eq]
    exact h x hx
  unfold processRow
  rw [if_neg heff, hfind]

/-- Claim C5 (witness): spec scenario 5, identifier L123 absent from the CRM
list. -/
theorem claim_c5_witness :
    processRow [{ uberallLocationId := pstr "X", workflowStatus := none,
                  projektname := none }]
      { locationId := some (pstr "L123"), locationState := pstr "ACTIVE",
        locationName := some (pstr "Name") } = .issue
      { location_id := pstr "L123"
        location_name := some (pstr "Name")
        location_state := pstr "ACTIVE"
        problem_type := pstr "Location nicht im CRM"
        problem_detail := pstr "Location ID wurde im CRM nicht gefunden"
        billing_data := ⟨some (pstr "L123"), pstr "ACTIVE", some (pstr "Name")⟩
        crm_data := none
        workflow_status := some (pstr "N/A")
        projektname := some (pstr "N/A") } :=
  claim_c5 _ _ (by decide) (by decide)

theorem find_first (r : CrmRow) (post : List CrmRow) (loc : List Nat)
    (hr : r.uberallLocationId = loc) :
    ∀ pre : List CrmRow, (∀ x ∈ pre, x.uberallLocationId ≠ loc) →
      List.find? (fun x => x.uberallLocationId == loc) (pre ++ r :: post) = some r := by
  intro pre
  induction pre with
  | nil =>
    intro _
    rw [List.nil_append]
    exact List.find?_cons_of_pos post (by simp [hr])
  | cons a t ih =>
    intro hpre
    rw [List.cons_append, List.find?_cons_of_neg]
    · exact ih (fun x hx => hpre x (List.mem_cons_of_mem a hx))
    · simp only [beq_iff_eq]
      exact hpre a (List.mem_cons_self a t)

/-- Claim C6: when one or more CRM records share the billing identifier, the
engine uses exactly the first one in source order: the outcome is the
status rule applied to that record, and on an incompatible verdict the
recorded entry carries that first record, its workflow status and its
project name.  The engine is a pure function of its inputs, so the
outcome is identical on every run with identical input ordering. -/
theorem claim_c6 (row : BillingRow) (pre post : List CrmRow) (r : CrmRow)
    (heff : effectiveLocationId row ≠ [])
    (hr : r.uberallLocationId = effectiveLocationId row)
    (hpre : ∀ x ∈ pre, x.uberallLocationId ≠ effectiveLocationId row) :
    processRow (pre ++ r :: post) row =
      (if (is_status_combination_ok row.locationState r.workflowStatus).1 then
        Outcome.ok
      else
        Outcome.issue
          { location_id := effectiveLocationId row
            location_name := row.locationName
            location_state := row.locationState
            problem_type := pstr "Status-Kombination Problem"
            problem_detail := (is_status_combination_ok row.locationState r.workflowStatus).2
            billing_data := row
            crm_data := some r
            workflow_status := r.workflowStatus
            projektname := r.projektname }) := by
  have hfind : findCrmMatch (pre ++ r :: post) (effectiveLocationId row) = some r := by
    unfold findCrmMatch
    exact find_first r post _ hr pre hpre
  unfold processRow
  rw [if_neg heff, hfind]

/-- Claim C6 (witness): spec scenario 6, two CRM records with identifier L9
behind an unrelated record; the first L9 record (gekündigt, CANCELLED
billing) decides the outcome. -/
theorem claim_c6_witness :
    processRow
      ([{ uberallLocationId := pstr "X", workflowStatus := some (pstr "w"),
          projektname := none }] ++
        { uberallLocationId := pstr "L9", workflowStatus := some (pstr "gekündigt"),
          projektname := some (pstr "P1") } ::
        [{ uberallLocationId := pstr "L9", workflowStatus := some (pstr "offen"),
           projektname := some (pstr "P2") }])
      { locationId := some (pstr "L9"), locationState := pstr "CANCELLED",
        locationName := none } = Outcome.ok :=
  (claim_c6
    { locationId := some (pstr "L9"), locationState := pstr "CANCELLED",
      locationName := none }
    [{ uberallLocationId := pstr "X", workflowStatus := some (pstr "w"),
       projektname := none }]
    [{ uberallLocationId := pstr "L9", workflowStatus := some (pstr "offen"),
       projektname := some (pstr "P2") }]
    { uberallLocationId := pstr "L9", workflowStatus := some (pstr "gekündigt"),
      projektname := some (pstr "P1") }
    (by decide) (by decide) (by decide)).trans (by decide)

theorem processRow_issue_type (crm : List CrmRow) (row : BillingRow) (i : Issue)
    (h : processRow crm row = .issue i) :
    i.problem_type = pstr "Location nicht im CRM" ∨
    i.problem_type = pstr "Status-Kombination Problem" := by
  unfold processRow at h
  by_cases heff : effectiveLocationId row = []
  · rw [if_pos heff] at h
    exact absurd h (by simp)
  · rw [if_neg heff] at h
    cases hfind : findCrmMatch crm (effectiveLocationId row) with
    | none =>
      rw [hfind] at h
      dsimp only at h
      injection h with h2
      rw [← h2]
      exact Or.inl rfl
    | some r =>
      rw [hfind] at h
      dsimp only at h
      by_cases hok : (is_status_combination_ok row.locationState r.workflowStatus).1 = true
      · rw [if_pos hok] at h
        exact absurd h (by simp)
      · rw [if_neg hok] at h
        injection h with h2
        rw [← h2]
        exact Or.inr rfl

theorem keys_bumpType (P : List Nat → Prop) (k : List Nat) (hk : P k) :
    ∀ m : List (List Nat × Nat), (∀ kv ∈ m, P kv.1) →
      ∀ kv ∈ bumpType m k, P kv.1 := by
  intro m
  induction m with
  | nil =>
    intro _ kv hkv
    simp only [bumpType, List.mem_singleton] at hkv
    rw [hkv]
    exact hk
  | cons a t ih =>
    intro hm kv hkv
    obtain ⟨k2, v⟩ := a
    unfold bumpType at hkv
    by_cases hk2 : k2 = k
    · rw [if_pos hk2] at hkv
      rcases List.mem_cons.mp hkv with rfl | htail
      · exact hm (k2, v) (List.mem_cons_self _ _)
      · exact hm kv (List.mem_cons_of_mem _ htail)
    · rw [if_neg hk2] at hkv
      rcases List.mem_cons.mp hkv with rfl | htail
      · exact hm (k2, v) (List.mem_cons_self _ _)
      · exact ih (fun kv2 h2 => hm kv2 (List.mem_cons_of_mem _ h2)) kv htail

theorem keys_countTypes (P : List Nat → Prop) :
    ∀ (l : List Issue) (m : List (List Nat × Nat)),
      (∀ kv ∈ m, P kv.1) → (∀ i ∈ l, P i.problem_type) →
      ∀ kv ∈ l.foldl (fun acc i => bumpType acc i.problem_type) m, P kv.1 := by
  intro l
  induction l with
  | nil =>
    intro m hm _ kv hkv
    exact hm kv hkv
  | cons i t ih =>
    intro m hm hl kv hkv
    simp only [List.foldl_cons] at hkv
    exact ih (bumpType m i.problem_type)
      (keys_bumpType P i.problem_type (hl i (List.mem_cons_self _ _)) m hm)
      (fun j hj => hl j (List.mem_cons_of_mem _ hj)) kv hkv

/-- Claim C10: every problematic entry produced by the analysis carries one of
exactly two problem-type labels, Location nicht im CRM for unmatched
records and Status-Kombination Problem for matched-but-incompatible
records; consequently every key of issues_by_type is one of these two
labels. -/
theorem claim_c10 (u : List BillingRow) (c : List CrmRow) :
    (∀ i ∈ (analyze_billing_discrepancies u c).problematic_entries,
      i.problem_type = pstr "Location nicht im CRM" ∨
      i.problem_type = pstr "Status-Kombination Problem")
    ∧ (∀ kv ∈ (analyze_billing_discrepancies u c).issues_by_type,
      kv.1 = pstr "Location nicht im CRM" ∨
      kv.1 = pstr "Status-Kombination Problem") := by
  have hmain : ∀ i ∈ (u.map (processRow c)).filterMap Outcome.issueOf,
      i.problem_type = pstr "Location nicht im CRM" ∨
      i.problem_type = pstr "Status-Kombination Problem" := by
    intro i hi
    rcases List.mem_filterMap.mp hi with ⟨o, ho, hoi⟩
    rcases List.mem_map.mp ho with ⟨row, hrow, hpo⟩
    cases o with
    | skipped => simp [Outcome.issueOf] at hoi
    | ok => simp [Outcome.issueOf] at hoi
    | issue j =>
      simp only [Outcome.issueOf, Option.some.injEq] at hoi
      subst hoi
      exact processRow_issue_type c row j hpo
  refine ⟨hmain, ?_⟩
  intro kv hkv
  exact keys_countTypes
    (fun t => t = pstr "Location nicht im CRM" ∨ t = pstr "Status-Kombination Problem")
    ((u.map (processRow c)).filterMap Outcome.issueOf) [] (by simp) hmain kv hkv

/-- Claim C10 (witness): the single problematic entry of a one-row run with an
empty CRM list carries the Location nicht im CRM label. -/
theorem claim_c10_witness :
    (Issue.mk (pstr "L1") none (pstr "ACTIVE") (pstr "Location nicht im CRM")
        (pstr "Location ID wurde im CRM nicht gefunden")
        ⟨some (pstr "L1"), pstr "ACTIVE", none⟩ none (some (pstr "N/A"))
        (some (pstr "N/A"))).problem_type =
        pstr "Location nicht im CRM" ∨
    (Issue.mk (pstr "L1") none (pstr "ACTIVE") (pstr "Location nicht im CRM")
        (pstr "Location ID wurde im CRM nicht gefunden")
        ⟨some (pstr "L1"), pstr "ACTIVE", none⟩ none (some (pstr "N/A"))
        (some (pstr "N/A"))).problem_type =
        pstr "Status-Kombination Problem" :=
  (claim_c10 [⟨some (pstr "L1"), pstr "ACTIVE", none⟩] []).1 _ (by decide)

/-! ### Claims about product categorization -/

/-- Claim C7 (amended): categorization is a pure function of the plan value,
first match wins in the order basic, plus (also via the manger plus
variant), pro, and a present plan matching no keyword is Sonstige; a
missing (NaN or absent) plan value is Unbekannt, but a present empty
string counts as present and yields Sonstige, not Unbekannt; the plan
basic pro classifies as Basic. -/
theorem claim_c7_amended :
    get_product_type none = pstr "Unbekannt"
    ∧ (∀ p, pstr "basic" <:+: pyLower p →
        get_product_type (some p) = pstr "Firmendaten Manager Basic")
    ∧ (∀ p, ¬ (pstr "basic" <:+: pyLower p) →
        (pstr "plus" <:+: pyLower p ∨ pstr "manger plus" <:+: pyLower p) →
        get_product_type (some p) = pstr "Firmendaten Manager Plus")
    ∧ (∀ p, ¬ (pstr "basic" <:+: pyLower p) → ¬ (pstr "plus" <:+: pyLower p) →
        pstr "pro" <:+: pyLower p →
        get_product_type (some p) = pstr "Firmendaten Manager PRO")
    ∧ (∀ p, ¬ (pstr "basic" <:+: pyLower p) → ¬ (pstr "plus" <:+: pyLower p) →
        ¬ (pstr "pro" <:+: pyLower p) →
        get_product_type (some p) = pstr "Sonstige")
    ∧ get_product_type (some (pstr "basic pro")) = pstr "Firmendaten Manager Basic" := by
  refine ⟨rfl, ?_, ?_, ?_, ?_, by decide⟩
  · intro p h
    unfold get_product_type
    dsimp only
    rw [if_pos h]
  · intro p hb h
    unfold get_product_type
    dsimp only
    rw [if_neg hb, if_pos h]
  · intro p hb hp h
    have hmang : ¬ (pstr "manger plus" <:+: pyLower p) := fun hx =>
      hp ((show pstr "plus" <:+: pstr "manger plus" by decide).trans hx)
    unfold get_product_type
    dsimp only
    rw [if_neg hb, if_neg (fun h1 => h1.elim hp hmang), if_pos h]
  · intro p hb hp hpro
    have hmang : ¬ (pstr "manger plus" <:+: pyLower p) := fun hx =>
      hp ((show pstr "plus" <:+: pstr "manger plus" by decide).trans hx)
    unfold get_product_type
    dsimp only
    rw [if_neg hb, if_neg (fun h1 => h1.elim hp hmang), if_neg hpro]

/-- Claim C7 (counterexample): contrary to the claim, a present empty-string
plan is categorized as Sonstige, not Unbekannt, because the code only
treats a missing (NaN) plan cell as Unbekannt. -/
theorem claim_c7_counterexample :
    get_product_type (some (pstr "")) = pstr "Sonstige" ∧
    ¬ (get_product_type (some (pstr "")) = pstr "Unbekannt") := by
  decide

/-- Claim C7 (witness): the literal misspelling variant Manger Plus is
categorized as Plus. -/
theorem claim_c7_witness :
    get_product_type (some (pstr "Manger Plus")) = pstr "Firmendaten Manager Plus" :=
  claim_c7_amended.2.2.1 (pstr "Manger Plus") (by decide) (Or.inl (by decide))

/-! ### Claims about the CSV export rows -/

theorem not_mem_replaceComma (s : List Nat) : (44 : Nat) ∉ replaceComma s := by
  unfold replaceComma
  intro h
  rcases List.mem_map.mp h with ⟨c, -, hc⟩
  by_cases h44 : c = 44
  · rw [if_pos h44] at hc
    exact absurd hc (by decide)
  · rw [if_neg h44] at hc
    exact h44 hc

theorem splitComma_no (a : List Nat) (h : (44 : Nat) ∉ a) : splitComma a = [a] := by
  induction a with
  | nil => rfl
  | cons c t ih =>
    have hc : ¬ (c = 44) := fun hx => h (by rw [hx]; exact List.mem_cons_self _ _)
    unfold splitComma
    rw [if_neg hc, ih (fun hx => h (List.mem_cons_of_mem _ hx))]

theorem splitComma_append (a b : List Nat) (h : (44 : Nat) ∉ a) :
    splitComma (a ++ 44 :: b) = a :: splitComma b := by
  induction a with
  | nil =>
    rw [List.nil_append]
    simp only [splitComma]
    rw [if_pos trivial]
  | cons c t ih =>
    have hc : ¬ (c = 44) := fun hx => h (by rw [hx]; exact List.mem_cons_self _ _)
    rw [List.cons_append]
    simp only [splitComma]
    rw [if_neg hc, ih (fun hx => h (List.mem_cons_of_mem _ hx))]

/-- Claim C9 (amended): in an exported data row the four free-text fields
(display name, problem detail, workflow status, project name) have every
embedded comma replaced by a semicolon, while identifier, billing state
and problem type are inserted verbatim; whenever those three verbatim
fields are comma-free the row splits at the separator into exactly the
seven columns in the stated order, and the header lists the seven
columns in that same order. -/
theorem claim_c9_amended :
    (∀ i : Issue, (44 : Nat) ∉ i.location_id → (44 : Nat) ∉ i.location_state →
      (44 : Nat) ∉ i.problem_type →
      splitComma (csvIssueRow i) =
        [i.location_id, replaceComma (strCell i.location_name), i.location_state,
         i.problem_type, replaceComma i.problem_detail,
         replaceComma (strCell i.workflow_status),
         replaceComma (strCell i.projektname)])
    ∧ splitComma csvHeader =
        [pstr "Location ID", pstr "Location Name", pstr "Location State",
         pstr "Problem Typ", pstr "Problem Detail", pstr "Workflow Status",
         pstr "Projektname"] := by
  constructor
  · intro i h1 h2 h3
    have e : csvIssueRow i =
        i.location_id ++ 44 :: (replaceComma (strCell i.location_name) ++ 44 ::
          (i.location_state ++ 44 :: (i.problem_type ++ 44 ::
            (replaceComma i.problem_detail ++ 44 ::
              (replaceComma (strCell i.workflow_status) ++ 44 ::
                replaceComma (strCell i.projektname)))))) := by
      simp [csvIssueRow, List.append_assoc]
    rw [e, splitComma_append _ _ h1, splitComma_append _ _ (not_mem_replaceComma _),
      splitComma_append _ _ h2, splitComma_append _ _ h3,
      splitComma_append _ _ (not_mem_replaceComma _),
      splitComma_append _ _ (not_mem_replaceComma _),
      splitComma_no _ (not_mem_replaceComma _)]
  · decide

/-- Claim C9 (counterexample): contrary to the claim, the billing-state field
is inserted verbatim: a state containing a comma survives into the row,
so the row differs from the all-fields-replaced rendering and splits
into eight columns instead of seven. -/
theorem claim_c9_counterexample :
    csvIssueRow
        { location_id := pstr "L1"
          location_name := some (pstr "Name")
          location_state := pstr "A,B"
          problem_type := pstr "T"
          problem_detail := pstr "D"
          billing_data := ⟨some (pstr "L1"), pstr "A,B", some (pstr "Name")⟩
          crm_data := none
          workflow_status := some (pstr "W")
          projektname := some (pstr "P") } ≠
      csvIssueRowSpec
        { location_id := pstr "L1"
          location_name := some (pstr "Name")
          location_state := pstr "A,B"
          problem_type := pstr "T"
          problem_detail := pstr "D"
          billing_data := ⟨some (pstr "L1"), pstr "A,B", some (pstr "Name")⟩
          crm_data := none
          workflow_status := some (pstr "W")
          projektname := some (pstr "P") } ∧
    (splitComma (csvIssueRow
        { location_id := pstr "L1"
          location_name := some (pstr "Name")
          location_state := pstr "A,B"
          problem_type := pstr "T"
          problem_detail := pstr "D"
          billing_data := ⟨some (pstr "L1"), pstr "A,B", some (pstr "Name")⟩
          crm_data := none
          workflow_status := some (pstr "W")
          projektname := some (pstr "P") })).length = 8 := by
  decide

/-- Claim C9 (witness): a row whose free-text fields contain commas renders
with those commas replaced and splits into the seven columns. -/
theorem claim_c9_witness :
    splitComma (csvIssueRow
      { location_id := pstr "L1"
        location_name := some (pstr "Na,me")
        location_state := pstr "ACTIVE"
        problem_type := pstr "Status-Kombination Problem"
        problem_detail := pstr "x, y"
        billing_data := ⟨some (pstr "L1"), pstr "ACTIVE", some (pstr "Na,me")⟩
        crm_data := none
        workflow_status := some (pstr "W,1")
        projektname := none }) =
      [pstr "L1", pstr "Na;me", pstr "ACTIVE", pstr "Status-Kombination Problem",
       pstr "x; y", pstr "W;1", pstr "nan"] :=
  claim_c9_amended.1 _ (by decide) (by decide) (by decide)

end Uberall
